import Mathlib

set_option maxRecDepth 100000

/-!
Shallow embedding of `ddlconvert.py` (Oracle DDL → SQLite DDL converter).

Strings are modelled as `List Char`.  The Python regular expressions used by
the source are each embedded as a dedicated recursive scanner that reproduces
the semantics of the concrete pattern (leftmost match, greedy/lazy
quantifiers, case-insensitive matching, word boundaries).  `\w`, `\s`, `\d`
and `str.upper()` are modelled over ASCII, which covers every character the
converter's fixed keyword patterns can match.
-/

namespace DdlConvert

/-- Python `\s` (ASCII range): space, tab, newline, carriage return,
vertical tab, form feed. -/
def isSpace (c : Char) : Bool :=
  c = ' ' || c = '\t' || c = '\n' || c = '\r' || c = '\x0b' || c = '\x0c'

/-- Python `\w` (ASCII range): letters, digits, underscore. -/
def isWordChar (c : Char) : Bool :=
  c.isAlphanum || c = '_'

/-- Python `\d` (ASCII range). -/
def isDigitChar (c : Char) : Bool :=
  c.isDigit

/-- Case-insensitive character comparison (ASCII upper-casing, as in
`re.IGNORECASE` over the converter's ASCII keyword patterns). -/
def ciEq (a b : Char) : Bool :=
  a.toUpper = b.toUpper

/-- Does `l` start with `pat`, case-insensitively? -/
def startsWithCI : List Char → List Char → Bool
  | [], _ => true
  | _ :: _, [] => false
  | p :: ps, c :: cs => ciEq p c && startsWithCI ps cs

/-- Drop a case-insensitive occurrence of `pat` from the front of `l`,
returning the remainder, or `none` when `l` does not start with `pat`. -/
def dropCI : List Char → List Char → Option (List Char)
  | [], l => some l
  | _ :: _, [] => none
  | p :: ps, c :: cs => if ciEq p c then dropCI ps cs else none

/-- Does `l` start with `pat` (case-sensitively)? -/
def startsWithCS : List Char → List Char → Bool
  | [], _ => true
  | _ :: _, [] => false
  | p :: ps, c :: cs => p = c && startsWithCS ps cs

/-- Does `pat` occur as a contiguous substring of `l` (case-sensitively)? -/
def containsSub (pat : List Char) : List Char → Bool
  | [] => startsWithCS pat []
  | c :: cs => startsWithCS pat (c :: cs) || containsSub pat cs

/-- Does `pat` occur as a contiguous substring of `l`, case-insensitively? -/
def containsSubCI (pat : List Char) : List Char → Bool
  | [] => startsWithCI pat []
  | c :: cs => startsWithCI pat (c :: cs) || containsSubCI pat cs

/-- Greedy `\s+`: requires at least one whitespace character, consumes the
maximal run. -/
def skipWs1 (l : List Char) : Option (List Char) :=
  match l with
  | c :: _ => if isSpace c then some (l.dropWhile isSpace) else none
  | [] => none

/-- Greedy `\w+`: requires at least one word character, consumes the maximal
run.  Returns the consumed word and the remainder. -/
def takeWord1 (l : List Char) : Option (List Char × List Char) :=
  match l with
  | c :: _ =>
    if isWordChar c then some (l.takeWhile isWordChar, l.dropWhile isWordChar)
    else none
  | [] => none

/-- Greedy `\d+`: requires at least one digit, consumes the maximal run. -/
def takeDigits1 (l : List Char) : Option (List Char × List Char) :=
  match l with
  | c :: _ =>
    if isDigitChar c then some (l.takeWhile isDigitChar, l.dropWhile isDigitChar)
    else none
  | [] => none

/-- Optional double quote, `"?`. -/
def skipQuoteOpt (l : List Char) : List Char :=
  match l with
  | '"' :: r => r
  | _ => l

/-- Python `str.strip()`: remove leading and trailing whitespace. -/
def stripWs (l : List Char) : List Char :=
  ((l.dropWhile isSpace).reverse.dropWhile isSpace).reverse

/-- Python `str.rstrip(c)`: remove all trailing occurrences of a character. -/
def rstripChar (ch : Char) (l : List Char) : List Char :=
  (l.reverse.dropWhile (· = ch)).reverse

/-! ## Preprocessor (lines 38–41 of `ddlconvert.py`) -/

/-- Helper for `--` line comments: the suffix of `l` starting at the first
newline.  The `$` of the non-greedy `--.*?$` in MULTILINE mode stops the
match just before the newline, so the newline itself is kept. -/
def dropToEol : List Char → List Char
  | [] => []
  | c :: r => if c = '\n' then c :: r else dropToEol r

theorem dropToEol_length_le (l : List Char) : (dropToEol l).length ≤ l.length := by
  induction l with
  | nil => simp [dropToEol]
  | cons c r ih =>
    simp only [dropToEol]
    split
    · exact Nat.le_refl _
    · exact Nat.le_succ_of_le ih

/-- Fuel-driven scan for `re.sub(r'--.*?$', '', sql, flags=re.MULTILINE)`:
delete from each `--` to the end of its line.  Each step consumes at least
one character, so a fuel equal to the text length never runs out. -/
def remLineAux : Nat → List Char → List Char
  | 0, l => l
  | _ + 1, [] => []
  | _ + 1, [c] => [c]
  | fuel + 1, a :: b :: r =>
    if a = '-' && b = '-' then remLineAux fuel (dropToEol r)
    else a :: remLineAux fuel (b :: r)

def removeLineComments (l : List Char) : List Char := remLineAux l.length l

/-- Scan for the first `*/`, returning the suffix after it. -/
def findCloseBC : List Char → Option (List Char)
  | [] => none
  | [_] => none
  | a :: b :: r =>
    if a = '*' && b = '/' then some r else findCloseBC (b :: r)

theorem findCloseBC_length_lt (l r : List Char) (h : findCloseBC l = some r) :
    r.length < l.length := by
  induction l with
  | nil => simp [findCloseBC] at h
  | cons a t ih =>
    cases t with
    | nil => simp [findCloseBC] at h
    | cons b r2 =>
      rw [findCloseBC] at h
      split at h
      · cases h; simp; omega
      · exact Nat.lt_succ_of_lt (ih h)

/-- Fuel-driven scan for `re.sub(r'/\*.*?\*/', '', sql, flags=re.DOTALL)`:
delete each `/*` through the first following `*/`; a `/*` with no closing
`*/` is kept (the regex fails to match there and the engine moves on). -/
def remBlockAux : Nat → List Char → List Char
  | 0, l => l
  | _ + 1, [] => []
  | _ + 1, [c] => [c]
  | fuel + 1, a :: b :: r =>
    if a = '/' && b = '*' then
      match findCloseBC r with
      | some r2 => remBlockAux fuel r2
      | none => a :: remBlockAux fuel (b :: r)
    else a :: remBlockAux fuel (b :: r)

def removeBlockComments (l : List Char) : List Char := remBlockAux l.length l

/-- The keyword `NOVALIDATE` as a character list. -/
def novTok : List Char := ("NOVALIDATE").toList

/-- Word-boundary test on the right: the next character (if any) must not be
a word character. -/
def boundaryRight (l : List Char) : Bool :=
  match l with
  | [] => true
  | c :: _ => !isWordChar c

/-- `re.sub(r'\bNOVALIDATE\b', '', sql, flags=re.IGNORECASE)`.
`prevWord` records whether the character just before the current scan
position (in the original text) is a word character: `\b` holds before the
keyword iff it is not. -/
def removeNovAux : Nat → Bool → List Char → List Char
  | 0, _, l => l
  | _ + 1, _, [] => []
  | fuel + 1, prevWord, c :: rest =>
    if !prevWord && startsWithCI novTok (c :: rest) && boundaryRight (rest.drop 9) then
      removeNovAux fuel true (rest.drop 9)
    else c :: removeNovAux fuel (isWordChar c) rest

/-- Stage 3 of the preprocessor:
`re.sub(r'\bNOVALIDATE\b', '', sql, flags=re.IGNORECASE)`. -/
def removeNov (l : List Char) : List Char := removeNovAux l.length false l

/-- `re.sub(r'\s+', ' ', sql)`: collapse each maximal whitespace run to a
single space. -/
def collapseWs : List Char → List Char
  | [] => []
  | [c] => if isSpace c then [' '] else [c]
  | a :: b :: r =>
    if isSpace a then
      if isSpace b then collapseWs (b :: r)
      else ' ' :: collapseWs (b :: r)
    else a :: collapseWs (b :: r)

/-- The preprocessor (lines 38–41): comment removal, `NOVALIDATE` removal,
whitespace collapse, trim. -/
def preprocess (l : List Char) : List Char :=
  stripWs (collapseWs (removeNov (removeBlockComments (removeLineComments l))))

/-! ## Constraint extractor (lines 44–47) -/

def alterTok : List Char := ("ALTER TABLE").toList
def addConstraintTok : List Char := ("ADD CONSTRAINT").toList
def primaryKeyTok : List Char := ("PRIMARY KEY").toList

/-- Literal single-character pattern. -/
def expectChar (ch : Char) (l : List Char) : Option (List Char) :=
  match l with
  | c :: r => if c = ch then some r else none
  | [] => none

/-- `"?\w+"?`: optional quote, word, optional quote (capture dropped). -/
def quotedWord (l : List Char) : Option (List Char) :=
  match takeWord1 (skipQuoteOpt l) with
  | some (_, r) => some (skipQuoteOpt r)
  | none => none

/-- `"?(\w+)"?`: optional quote, captured word, optional quote. -/
def quotedWordCap (l : List Char) : Option (List Char × List Char) :=
  match takeWord1 (skipQuoteOpt l) with
  | some (w, r) => some (w, skipQuoteOpt r)
  | none => none

/-- `\s+"?(\w+)"?\."?(\w+)"?` — the schema/table part shared by the two
header patterns; returns (second capture, remainder). -/
def schemaTable (l : List Char) : Option (List Char × List Char) :=
  match skipWs1 l with
  | none => none
  | some r =>
  match quotedWord r with
  | none => none
  | some r =>
  match expectChar '.' r with
  | none => none
  | some r => quotedWordCap r

/-- `([^)]+)\)`: the greedy non-empty paren-free capture plus the closing
parenthesis; returns the capture. -/
def parenGroup (l : List Char) : Option (List Char) :=
  let g := l.takeWhile (· ≠ ')')
  if g.length = 0 then none
  else match l.drop g.length with
    | ')' :: _ => some g
    | _ => none

/-- Attempt the pattern
`ALTER TABLE\s+"?(\w+)"?\."?(\w+)"?\s+ADD CONSTRAINT\s+"?\w+"?\s+PRIMARY KEY\s+\(([^)]+)\)`
at the head of `l`; on success return capture group 3 (the column list).
Every quantifier in the pattern is deterministic here because the greedy
character classes (`\s`, `\w`, `[^)]`) are disjoint from the literal that
follows them, so a single greedy pass is faithful to the engine. -/
def tryPkAt (l : List Char) : Option (List Char) :=
  match dropCI alterTok l with
  | none => none
  | some r =>
  match schemaTable r with
  | none => none
  | some (_, r) =>
  match skipWs1 r with
  | none => none
  | some r =>
  match dropCI addConstraintTok r with
  | none => none
  | some r =>
  match skipWs1 r with
  | none => none
  | some r =>
  match quotedWord r with
  | none => none
  | some r =>
  match skipWs1 r with
  | none => none
  | some r =>
  match dropCI primaryKeyTok r with
  | none => none
  | some r =>
  match skipWs1 r with
  | none => none
  | some r =>
  match expectChar '(' r with
  | none => none
  | some r => parenGroup r

/-- `re.search` of the primary-key pattern: first position where `tryPkAt`
succeeds. -/
def searchPk : List Char → Option (List Char)
  | [] => none
  | c :: rest =>
    match tryPkAt (c :: rest) with
    | some g => some g
    | none => searchPk rest

/-! ## Block extractor (`extract_create_table_block`, lines 20–35) -/

def createTableTok : List Char := ("CREATE TABLE").toList

/-- Attempt the header pattern
`CREATE TABLE\s+"?([\w\d_]+)"?\."?([\w\d_]+)"?\s*\(` at the head of `l`;
on success return (table name = group 2, remainder after the opening
parenthesis). -/
def tryCreateAt (l : List Char) : Option (List Char × List Char) :=
  match dropCI createTableTok l with
  | none => none
  | some r =>
  match schemaTable r with
  | none => none
  | some (tbl, r) =>
  match expectChar '(' (r.dropWhile isSpace) with
  | none => none
  | some r => some (tbl, r)

/-- First match of the header pattern: returns
(text before the match, table name, remainder after the opening
parenthesis).  The matched header itself is recoverable by length. -/
def searchCreate : List Char → Option (List Char × List Char × List Char)
  | [] => none
  | c :: rest =>
    match tryCreateAt (c :: rest) with
    | some (tbl, r) => some ([], tbl, r)
    | none =>
      match searchCreate rest with
      | some (pre, tbl, r) => some (c :: pre, tbl, r)
      | none => none

/-- The depth-counting scan of lines 26–33: starting just after the opening
parenthesis with depth 1, consume characters until depth returns to 0
(the closing parenthesis is consumed) or the text ends. -/
def scanDepth (depth : Nat) : List Char → List Char
  | [] => []
  | c :: rest =>
    if c = '(' then c :: scanDepth (depth + 1) rest
    else if c = ')' then
      if depth = 1 then [c] else c :: scanDepth (depth - 1) rest
    else c :: scanDepth depth rest

/-- `extract_create_table_block`: locate the header, then extend through the
matching closing parenthesis.  Returns (table name, block). -/
def extract_create_table_block (sql : List Char) : Option (List Char × List Char) :=
  match searchCreate sql with
  | none => none
  | some (pre, tbl, rest) =>
    let headerLen := sql.length - pre.length - rest.length
    let header := (sql.drop pre.length).take headerLen
    some (tbl, header ++ scanDepth 1 rest)

/-! ## Quoted identifiers (lines 54–56) -/

/-- One attempt of the pattern `"(\w+)"\."(\w+)"` at the head of `l`; on
success return (group 2, remainder). -/
def tryQuotedPairAt (l : List Char) : Option (List Char × List Char) :=
  match expectChar '"' l with
  | none => none
  | some r =>
  match takeWord1 r with
  | none => none
  | some (_, r) =>
  match expectChar '"' r with
  | none => none
  | some r =>
  match expectChar '.' r with
  | none => none
  | some r =>
  match expectChar '"' r with
  | none => none
  | some r =>
  match takeWord1 r with
  | none => none
  | some (w2, r) =>
  match expectChar '"' r with
  | none => none
  | some r => some (w2, r)

/-- Generic `re.sub(pattern, replacement, text)` driver: scan left to
right; at each position attempt the matcher; on a match emit its
replacement and resume after the matched text, otherwise keep the
character and move on.  The matcher receives the character preceding the
current position in the original text (for `\b` tests) and returns
(replacement, last character of the matched original text, remainder).
Every pattern used by the converter matches at least one character, so
`fuel = text length` never runs out before the scan finishes. -/
def reSubAux (m : Option Char → List Char → Option (List Char × Option Char × List Char)) :
    Nat → Option Char → List Char → List Char
  | 0, _, l => l
  | _ + 1, _, [] => []
  | fuel + 1, prev, c :: rest =>
    match m prev (c :: rest) with
    | some (rep, newPrev, r) => rep ++ reSubAux m fuel newPrev r
    | none => c :: reSubAux m fuel (some c) rest

def reSub (m : Option Char → List Char → Option (List Char × Option Char × List Char))
    (l : List Char) : List Char :=
  reSubAux m l.length none l

/-- Lift a matcher that ignores word-boundary context and deletes its match. -/
def delMatch (try_ : List Char → Option (List Char)) :
    Option Char → List Char → Option (List Char × Option Char × List Char) :=
  fun _ l => (try_ l).map (fun r => ([], none, r))

/-- `re.sub(r'"(\w+)"\."(\w+)"', r'\2', block)`. -/
def replaceQuotedPairs (l : List Char) : List Char :=
  reSub (fun _ t => (tryQuotedPairAt t).map (fun p => (p.1, some '"', p.2))) l

/-! ## Item splitter (lines 82–83) -/

/-- Python slice of the interior: `block[block.find('(')+1 : block.rfind(')')]`. -/
def innerOf (block : List Char) : List Char :=
  let i := match block.findIdx? (· = '(') with
    | some i => i + 1
    | none => 0
  let j := match (block.reverse.findIdx? (· = ')')) with
    | some jr => block.length - 1 - jr
    | none => block.length - 1
  (block.take j).drop i

/-- The negative lookahead `(?![^(]*\))` of the split pattern
`,(?![^(]*\))`: scanning right from the comma, does a `)` occur before any
`(`?  If so the lookahead body matches and the comma is NOT split on. -/
def closeBeforeOpen : List Char → Bool
  | [] => false
  | c :: rest =>
    if c = '(' then false
    else if c = ')' then true
    else closeBeforeOpen rest

/-- `re.split(r',(?![^(]*\))', inner)`: split on each comma for which the
lookahead fails. -/
def splitTop (l : List Char) : List (List Char) :=
  go [] l
where
  go (acc : List Char) : List Char → List (List Char)
    | [] => [acc.reverse]
    | c :: rest =>
      if c = ',' && !closeBeforeOpen rest then
        acc.reverse :: go [] rest
      else go (c :: acc) rest

/-! ## Item rewriter (lines 86–124) -/

/-- Case-sensitive prefix drop (for the uppercase-only patterns of
`map_oracle_type`, which are compiled without `re.IGNORECASE`). -/
def dropCS : List Char → List Char → Option (List Char)
  | [], l => some l
  | _ :: _, [] => none
  | p :: ps, c :: cs => if p = c then dropCS ps cs else none

def constraintTok : List Char := ("CONSTRAINT").toList
def enableTok : List Char := ("ENABLE").toList
def disableTok : List Char := ("DISABLE").toList
def tablespaceTok : List Char := ("TABLESPACE").toList
def segmentTok : List Char := ("SEGMENT CREATION").toList
def storageTok : List Char := ("STORAGE").toList
def supplementalTok : List Char := ("SUPPLEMENTAL LOG DATA").toList
def columnsTok : List Char := ("COLUMNS").toList
def usingIndexTok : List Char := ("USING INDEX").toList
def inTok : List Char := ("IN").toList
def nullTok : List Char := ("NULL").toList
def charTok : List Char := ("CHAR").toList
def byteTok : List Char := ("BYTE").toList
def varchar2Tok : List Char := ("VARCHAR2").toList
def numberTok : List Char := ("NUMBER").toList
def clobTok : List Char := ("CLOB").toList
def dateTok : List Char := ("DATE").toList
def timestampTok : List Char := ("TIMESTAMP").toList
def blobTok : List Char := ("BLOB").toList
def defaultTok : List Char := ("DEFAULT").toList
def nextvalTok : List Char := ("NEXTVAL").toList

/-- `CONSTRAINT\s+\w+\s+` (line 87). -/
def tryConstraint (l : List Char) : Option (List Char) :=
  match dropCI constraintTok l with
  | none => none
  | some r =>
  match skipWs1 r with
  | none => none
  | some r =>
  match takeWord1 r with
  | none => none
  | some (_, r) => skipWs1 r

/-- `\b<tok>\b` with `re.IGNORECASE` (lines 88–90): `prev` is the character
before the match position in the original text. -/
def tryBoundedKw (tok : List Char) (prev : Option Char) (l : List Char) :
    Option (List Char × Option Char × List Char) :=
  let prevOk := match prev with
    | none => true
    | some c => !isWordChar c
  if prevOk && startsWithCI tok l && boundaryRight (l.drop tok.length) then
    some ([], (l.take tok.length).getLast?, l.drop tok.length)
  else none

/-- `<tok>\s+\w+`: shared shape of the `TABLESPACE` and `SEGMENT CREATION`
patterns (lines 91–92). -/
def tryKwWsWord (tok : List Char) (l : List Char) : Option (List Char) :=
  match dropCI tok l with
  | none => none
  | some r =>
  match skipWs1 r with
  | none => none
  | some r =>
  match takeWord1 r with
  | none => none
  | some (_, r) => some r

/-- `TABLESPACE\s+\w+` (line 91). -/
def tryTablespace (l : List Char) : Option (List Char) :=
  tryKwWsWord tablespaceTok l

/-- `SEGMENT CREATION\s+\w+` (line 92). -/
def trySegment (l : List Char) : Option (List Char) :=
  tryKwWsWord segmentTok l

/-- The lazy `.*?\)` tail: consume up to and including the first `)`;
`.` does not match a newline (no `re.DOTALL` on these item patterns). -/
def scanToCloseDot : List Char → Option (List Char)
  | [] => none
  | c :: r =>
    if c = ')' then some r
    else if c = '\n' then none
    else scanToCloseDot r

/-- `STORAGE\s*\(.*?\)` (line 93). -/
def tryStorage (l : List Char) : Option (List Char) :=
  match dropCI storageTok l with
  | none => none
  | some r =>
  match expectChar '(' (r.dropWhile isSpace) with
  | none => none
  | some r => scanToCloseDot r

/-- Backtracking tail for `\(.*?\)\s*COLUMNS`: try each `)` in turn; after
a candidate `)` the greedy `\s*` and the literal `COLUMNS` must follow,
otherwise the lazy `.*?` grows past the candidate. -/
def suppTail : List Char → Option (List Char)
  | [] => none
  | c :: r =>
    if c = ')' then
      match dropCI columnsTok (r.dropWhile isSpace) with
      | some r2 => some r2
      | none => suppTail r
    else if c = '\n' then none
    else suppTail r

/-- `SUPPLEMENTAL LOG DATA\s*\(.*?\)\s*COLUMNS` (line 94). -/
def trySupplemental (l : List Char) : Option (List Char) :=
  match dropCI supplementalTok l with
  | none => none
  | some r =>
  match expectChar '(' (r.dropWhile isSpace) with
  | none => none
  | some r => suppTail r

/-- `USING INDEX\s+.*` (line 95): the greedy `.*` runs to the end of the
line (or of the item). -/
def tryUsingIndex (l : List Char) : Option (List Char) :=
  match dropCI usingIndexTok l with
  | none => none
  | some r =>
  match skipWs1 r with
  | none => none
  | some r => some (r.dropWhile (fun c => c ≠ '\n'))

/-- The lazy group 2 of the `IN (... NULL ...)` pattern: `([^)]+?)\)` forces
group 2 to be exactly the (non-empty) run up to the first `)`. -/
def checkG2 (u : List Char) : Option (List Char × List Char) :=
  let g2 := u.takeWhile (· ≠ ')')
  if g2.length = 0 then none
  else match u.drop g2.length with
    | ')' :: rest => some (g2, rest)
    | _ => none

/-- Body search for `([^)]+?)NULL([^)]+?)\)`: grow the lazy group 1 one
character at a time (it may not contain `)`), and at each position try the
literal `NULL` followed by a valid group 2. -/
def inNullBody (g1 : List Char) : List Char → Option (List Char × List Char × List Char)
  | [] => none
  | c :: r =>
    match (if startsWithCI nullTok (c :: r) && g1.length ≠ 0
           then checkG2 ((c :: r).drop 4) else none) with
    | some (g2, rest) => some (g1, g2, rest)
    | none => if c = ')' then none else inNullBody (g1 ++ [c]) r

/-- `IN\s*\(([^)]+?)NULL([^)]+?)\)` → `IN (\1\2) OR NEGATION IS NULL`
(line 98).  Note that the replacement inserts the literal word `NEGATION`. -/
def tryInNull (l : List Char) : Option (List Char × Option Char × List Char) :=
  match dropCI inTok l with
  | none => none
  | some r =>
  match expectChar '(' (r.dropWhile isSpace) with
  | none => none
  | some r =>
  match inNullBody [] r with
  | none => none
  | some (g1, g2, rest) =>
    some (("IN (").toList ++ g1 ++ g2 ++ (") OR NEGATION IS NULL").toList,
      some ')', rest)

/-- `(CHAR|BYTE)` alternation (tried in that order). -/
def dropCharOrByte (l : List Char) : Option (List Char) :=
  match dropCI charTok l with
  | some r => some r
  | none => dropCI byteTok l

/-- Shared tail `\s*\(\s*(\d+)\s+(CHAR|BYTE)\s*\)` of the line 101 pattern;
returns (digits, remainder). -/
def charByteTail (r0 : List Char) : Option (List Char × List Char) :=
  match expectChar '(' (r0.dropWhile isSpace) with
  | none => none
  | some r =>
  match takeDigits1 (r.dropWhile isSpace) with
  | none => none
  | some (d, r) =>
  match skipWs1 r with
  | none => none
  | some r =>
  match dropCharOrByte r with
  | none => none
  | some r =>
  match expectChar ')' (r.dropWhile isSpace) with
  | none => none
  | some r => some (d, r)

/-- `(CHAR|VARCHAR2)\s*\(\s*(\d+)\s+(CHAR|BYTE)\s*\)` → `\1(\2)`
(line 101); the alternation tries `CHAR` before `VARCHAR2` and `\1` keeps
the original spelling of the matched branch. -/
def tryCharByte (l : List Char) : Option (List Char × Option Char × List Char) :=
  match (dropCI charTok l).bind charByteTail with
  | some (d, rest) => some (l.take 4 ++ '(' :: (d ++ [')']), some ')', rest)
  | none =>
    match (dropCI varchar2Tok l).bind charByteTail with
    | some (d, rest) => some (l.take 9 ++ '(' :: (d ++ [')']), some ')', rest)
    | none => none

/-- `NUMBER\s*\(\s*(\d+)\s*,\s*(\d+)\s*\)` → `NUMBER(\1,\2)` (line 104). -/
def tryNumber2 (l : List Char) : Option (List Char × Option Char × List Char) :=
  match dropCI numberTok l with
  | none => none
  | some r =>
  match expectChar '(' (r.dropWhile isSpace) with
  | none => none
  | some r =>
  match takeDigits1 (r.dropWhile isSpace) with
  | none => none
  | some (d1, r) =>
  match expectChar ',' (r.dropWhile isSpace) with
  | none => none
  | some r =>
  match takeDigits1 (r.dropWhile isSpace) with
  | none => none
  | some (d2, r) =>
  match expectChar ')' (r.dropWhile isSpace) with
  | none => none
  | some r =>
    some (numberTok ++ '(' :: (d1 ++ ',' :: (d2 ++ [')'])), some ')', r)

/-- `NUMBER\s*\(\s*(\d+)\s*\)` → `NUMBER(\1)` (line 105). -/
def tryNumber1 (l : List Char) : Option (List Char × Option Char × List Char) :=
  match dropCI numberTok l with
  | none => none
  | some r =>
  match expectChar '(' (r.dropWhile isSpace) with
  | none => none
  | some r =>
  match takeDigits1 (r.dropWhile isSpace) with
  | none => none
  | some (d1, r) =>
  match expectChar ')' (r.dropWhile isSpace) with
  | none => none
  | some r =>
    some (numberTok ++ '(' :: (d1 ++ [')']), some ')', r)

/-- Lines 87–105: the per-item substitution chain, in source order. -/
def itemSubs (item : List Char) : List Char :=
  let i := reSub (delMatch tryConstraint) item
  let i := reSub (tryBoundedKw enableTok) i
  let i := reSub (tryBoundedKw disableTok) i
  let i := reSub (tryBoundedKw novTok) i
  let i := reSub (delMatch tryTablespace) i
  let i := reSub (delMatch trySegment) i
  let i := reSub (delMatch tryStorage) i
  let i := reSub (delMatch trySupplemental) i
  let i := reSub (delMatch tryUsingIndex) i
  let i := reSub (fun _ l => tryInNull l) i
  let i := reSub (fun _ l => tryCharByte l) i
  let i := reSub (fun _ l => tryNumber2 l) i
  let i := reSub (fun _ l => tryNumber1 l) i
  i

/-! ## Type mapping (`map_oracle_type`, lines 59–79) -/

/-- Python `str.upper()` (ASCII). -/
def upperAscii (l : List Char) : List Char := l.map Char.toUpper

/-- `\(\s*(\d+)\s+(CHAR|BYTE)\s*\)` → `(\1)` (line 63). -/
def tryParenCharByte (l : List Char) : Option (List Char × Option Char × List Char) :=
  match expectChar '(' l with
  | none => none
  | some r =>
  match takeDigits1 (r.dropWhile isSpace) with
  | none => none
  | some (d, r) =>
  match skipWs1 r with
  | none => none
  | some r =>
  match dropCharOrByte r with
  | none => none
  | some r =>
  match expectChar ')' (r.dropWhile isSpace) with
  | none => none
  | some r => some ('(' :: (d ++ [')']), some ')', r)

/-- Shared prefix `NUMBER\s*\(\d+` of the three anchored `re.match`
patterns of `map_oracle_type` (case-sensitive: they are compiled without
`re.IGNORECASE`, and are only ever applied to upper-cased text). -/
def matchNumHead (l : List Char) : Option (List Char) :=
  match dropCS numberTok l with
  | none => none
  | some r =>
  match expectChar '(' (r.dropWhile isSpace) with
  | none => none
  | some r =>
  match takeDigits1 r with
  | none => none
  | some (_, r) => some r

/-- `re.match(r'NUMBER\s*\(\d+,\s*0\)', t)` (line 65): anchored at the
start. -/
def matchNum20 (l : List Char) : Bool :=
  match matchNumHead l with
  | none => false
  | some r =>
  match expectChar ',' r with
  | none => false
  | some r =>
  match expectChar '0' (r.dropWhile isSpace) with
  | none => false
  | some r => (expectChar ')' r).isSome

/-- `re.match(r'NUMBER\s*\(\d+,\s*\d+\)', t)` (line 67). -/
def matchNum2 (l : List Char) : Bool :=
  match matchNumHead l with
  | none => false
  | some r =>
  match expectChar ',' r with
  | none => false
  | some r =>
  match takeDigits1 (r.dropWhile isSpace) with
  | none => false
  | some (_, r) => (expectChar ')' r).isSome

/-- `re.match(r'NUMBER\s*\(\d+\)', t)` (line 69). -/
def matchNum1 (l : List Char) : Bool :=
  match matchNumHead l with
  | none => false
  | some r => (expectChar ')' r).isSome

/-- `map_oracle_type` (lines 59–79). -/
def map_oracle_type (t0 : List Char) : List Char :=
  let t := upperAscii t0
  let t := reSub (fun _ l => tryParenCharByte l) t
  if matchNum20 t then ("INTEGER").toList
  else if matchNum2 t then ("REAL").toList
  else if matchNum1 t then ("INTEGER").toList
  else if containsSub numberTok t then ("INTEGER").toList
  else if containsSub varchar2Tok t || containsSub charTok t || containsSub clobTok t then
    ("TEXT").toList
  else if containsSub dateTok t || containsSub timestampTok t then ("TEXT").toList
  else if containsSub blobTok t then ("BLOB").toList
  else t

/-! ## Sequence default detection (line 115) -/

/-- `\.?NEXTVAL` (existence semantics). -/
def seqDotNextval (l : List Char) : Bool :=
  startsWithCI nextvalTok l ||
    (match l with
     | '.' :: r => startsWithCI nextvalTok r
     | _ => false)

/-- `\w*\.?NEXTVAL` (existence semantics). -/
def seqWordStar : List Char → Bool
  | [] => false
  | c :: r => seqDotNextval (c :: r) || (isWordChar c && seqWordStar r)

/-- `\.?` then `\w*\.?NEXTVAL`. -/
def seqAfterWord (l : List Char) : Bool :=
  seqWordStar l ||
    (match l with
     | '.' :: r => seqWordStar r
     | _ => false)

/-- `\w+\.?\w*\.?NEXTVAL` (existence semantics). -/
def seqWordPlus : List Char → Bool
  | [] => false
  | c :: r => isWordChar c && (seqAfterWord r || seqWordPlus r)

/-- One anchored attempt of `DEFAULT\s+\w+\.?\w*\.?NEXTVAL`. -/
def tryDefaultSeqAt (l : List Char) : Bool :=
  match dropCI defaultTok l with
  | some r =>
    match skipWs1 r with
    | some r2 => seqWordPlus r2
    | none => false
  | none => false

/-- `re.search(r'DEFAULT\s+\w+\.?\w*\.?NEXTVAL', rest, re.IGNORECASE)`
as a Boolean. -/
def hasDefaultSeq : List Char → Bool
  | [] => false
  | c :: r => tryDefaultSeqAt (c :: r) || hasDefaultSeq r

/-! ## Per-item loop and assembly (lines 86–132) -/

/-- Python `str.split()` with no argument: split on whitespace runs,
dropping empty fields. -/
def pySplitAux : Nat → List Char → List (List Char)
  | 0, _ => []
  | fuel + 1, l =>
    let t := l.dropWhile isSpace
    match t with
    | [] => []
    | _ =>
      t.takeWhile (fun c => !isSpace c) ::
        pySplitAux fuel (t.dropWhile (fun c => !isSpace c))

def pySplit (l : List Char) : List (List Char) := pySplitAux l.length l

/-- Python `sep.join(parts)`. -/
def joinSep (sep : List Char) : List (List Char) → List Char
  | [] => []
  | [x] => x
  | x :: y :: rest => x ++ sep ++ joinSep sep (y :: rest)

/-- The body of the `for item in items:` loop (lines 86–124) for one item:
given the pending primary-key column, returns the updated pending value and
the rewritten item (or `none` when the item became empty and is dropped). -/
def rewriteItem (pk : Option (List Char)) (item0 : List Char) :
    Option (List Char) × Option (List Char) :=
  let item := itemSubs item0
  let parts := pySplit item
  let st :=
    match parts with
    | colName :: colTy :: restParts =>
      let colType := map_oracle_type colTy
      let rest := joinSep [' '] restParts
      if hasDefaultSeq rest &&
          (match pk with
           | some p => upperAscii colName = upperAscii p
           | none => false) then
        (none, colName ++ (" INTEGER PRIMARY KEY AUTOINCREMENT").toList)
      else (pk, stripWs (colName ++ ' ' :: (colType ++ ' ' :: rest)))
    | _ => (pk, item)
  let item2 := rstripChar ',' (stripWs st.2)
  (st.1, if item2.isEmpty then none else some item2)

/-- The whole item loop, threading the pending primary key. -/
def processItems (pk : Option (List Char)) :
    List (List Char) → Option (List Char) × List (List Char)
  | [] => (pk, [])
  | it :: rest =>
    let s1 := rewriteItem pk it
    let s2 := processItems s1.1 rest
    (s2.1,
      (match s1.2 with
       | some x => [x]
       | none => []) ++ s2.2)

def errSentinel : List Char := ("-- ERROR: CREATE TABLE block not found").toList

/-- `convert_oracle_to_sqlite` (lines 37–132). -/
def convert_oracle_to_sqlite (sql0 : List Char) : List Char :=
  let sql := preprocess sql0
  let pk := (searchPk sql).map stripWs
  match extract_create_table_block sql with
  | none => errSentinel
  | some (tableName, block0) =>
    let block := (replaceQuotedPairs block0).filter (· ≠ '"')
    let inner := innerOf block
    let items := (splitTop inner).map stripWs
    let res := processItems pk items
    let cleaned := res.2 ++
      (match res.1 with
       | some p => [("PRIMARY KEY (").toList ++ p ++ [')']]
       | none => [])
    ("CREATE TABLE IF NOT EXISTS ").toList ++ tableName ++ (" (\n  ").toList ++
      joinSep (",\n  ").toList cleaned ++ ("\n);").toList

/-! ## Specification-level definitions

These definitions follow the words of the specification (not the source)
and are used to compare the source's behaviour against the spec's claims. -/

/-- Modelled from the spec (claim C2): split the interior at exactly the
commas lying at parenthesis depth 0 of the interior, tracking an explicit
depth counter. -/
def depth0SplitGo (depth : Nat) (acc : List Char) : List Char → List (List Char)
  | [] => [acc.reverse]
  | c :: rest =>
    if c = ',' && depth = 0 then acc.reverse :: depth0SplitGo 0 [] rest
    else
      depth0SplitGo
        (if c = '(' then depth + 1 else if c = ')' then depth - 1 else depth)
        (c :: acc) rest

def depth0Split (l : List Char) : List (List Char) := depth0SplitGo 0 [] l

/-- The Item Splitter as the spec describes it: strip the outermost
parentheses (first `(` to last `)`; this part agrees with the code's
`innerOf`), split at depth-0 commas, trim each item. -/
def specItemsOfBlock (block : List Char) : List (List Char) :=
  (depth0Split (innerOf block)).map stripWs

/-- The Item Splitter as the code implements it (lines 82–83). -/
def codeItemsOfBlock (block : List Char) : List (List Char) :=
  (splitTop (innerOf block)).map stripWs

/-- Parenthesis balance contribution of one character. -/
def parDelta (c : Char) : Int :=
  if c = '(' then 1 else if c = ')' then -1 else 0

/-- Net parenthesis depth of a string. -/
def netDepth : List Char → Int
  | [] => 0
  | c :: r => parDelta c + netDepth r

/-- Starting at depth `d`, the running parenthesis depth never becomes
negative. -/
def okFrom (d : Int) : List Char → Bool
  | [] => true
  | c :: r => decide (0 ≤ d + parDelta c) && okFrom (d + parDelta c) r

/-- The token `--`. -/
def dashDashTok : List Char := ("--").toList

/-- Does the text contain a `/*` with a later `*/` (i.e. a position where
the block-comment regex matches)? -/
def hasBlockPair : List Char → Bool
  | [] => false
  | [_] => false
  | a :: b :: r =>
    (a = '/' && b = '*' && (findCloseBC r).isSome) || hasBlockPair (b :: r)

/-- Does the text contain a `\bNOVALIDATE\b` match (case-insensitive)?
Mirrors the scan of `removeNovAux`. -/
def hasNovAux (prevWord : Bool) : List Char → Bool
  | [] => false
  | c :: rest =>
    (!prevWord && startsWithCI novTok (c :: rest) && boundaryRight (rest.drop 9)) ||
      hasNovAux (isWordChar c) rest

def hasNov (l : List Char) : Bool := hasNovAux false l

/-- An unqualified `CREATE TABLE\s+"?\w+"?\s*\(` header (no schema
qualifier), anchored at the head of `l` (claim C10). -/
def tryCreateNoSchemaAt (l : List Char) : Bool :=
  match dropCI createTableTok l with
  | none => false
  | some r =>
  match skipWs1 r with
  | none => false
  | some r =>
  match quotedWord r with
  | none => false
  | some r => (expectChar '(' (r.dropWhile isSpace)).isSome

/-- Does the text contain an unqualified CREATE TABLE header anywhere? -/
def hasCreateNoSchema : List Char → Bool
  | [] => false
  | c :: rest => tryCreateNoSchemaAt (c :: rest) || hasCreateNoSchema rest

/-! ## Claim inputs and expected outputs -/

def inC1 : List Char :=
  ("CREATE TABLE \"S\".\"T\" (A INT, CHECK (X IN (1, NULL, 2)))").toList
def outC1 : List Char :=
  ("CREATE TABLE IF NOT EXISTS T (\n  A INT,\n  CHECK (X IN (1, , 2) OR NEGATION IS NULL)\n);").toList

def blockC2bad : List Char := ("CREATE TABLE T (A CHECK (F(1), G(2)))").toList
def blockC2ok : List Char :=
  ("CREATE TABLE T (A NUMBER(10,2), B CHECK (X IN (1,2,3)), C STORAGE (INITIAL 1, NEXT 2))").toList

def inC3 : List Char :=
  ("CREATE TABLE \"S\".\"T\" (ID NUMBER(10) DEFAULT SEQ.NEXTVAL, NAME VARCHAR2(10)); ALTER TABLE \"S\".\"T\" ADD CONSTRAINT PK PRIMARY KEY (ID)").toList
def outC3 : List Char :=
  ("CREATE TABLE IF NOT EXISTS T (\n  ID INTEGER PRIMARY KEY AUTOINCREMENT,\n  NAME TEXT\n);").toList

def inC8 : List Char :=
  ("CREATE TABLE \"S\".\"T\" (ID NUMBER(10), NAME VARCHAR2(10)); ALTER TABLE \"S\".\"T\" ADD CONSTRAINT PK PRIMARY KEY (ID)").toList
def outC8 : List Char :=
  ("CREATE TABLE IF NOT EXISTS T (\n  ID INTEGER,\n  NAME TEXT,\n  PRIMARY KEY (ID)\n);").toList

def inC9 : List Char :=
  ("CREATE TABLE \"HR\".\"EMP\" (\"ID\" NUMBER(10,0) NOT NULL, \"NAME\" VARCHAR2(50 CHAR), CONSTRAINT EMP_CK CHECK (\"NAME\" IS NOT NULL) ENABLE)").toList
def outC9 : List Char :=
  ("CREATE TABLE IF NOT EXISTS EMP (\n  ID INTEGER NOT NULL,\n  NAME TEXT,\n  CHECK (NAME IS NOT NULL)\n);").toList

def inC7bad : List Char := ("CREATE TABLE \"S\".\"T\" (X INT STORAGE (A, B(1)))").toList
def inC7ok : List Char :=
  ("/* SECRET2 */ CREATE TABLE \"S\".\"T\" (A NUMBER(5) NOVALIDATE, B DATE TABLESPACE USERS, C CLOB STORAGE (INITIAL 1, NEXT 2)) -- SECRET1").toList
def outC7ok : List Char :=
  ("CREATE TABLE IF NOT EXISTS T (\n  A INTEGER,\n  B TEXT,\n  C TEXT\n);").toList

def inC6 : List Char := ("-/*x*/-").toList

def inC6W : List Char := ("A /* c */ NOVALIDATE  B -- z").toList

def tokC5 : List Char := ("XYZ(7)").toList

/-- Whitespace-normal form: every whitespace character is a plain space and
no space follows another (`prevSp` says whether the previous character was
a space).  This characterises the image of `collapseWs`. -/
def wsNormAux (prevSp : Bool) : List Char → Bool
  | [] => true
  | c :: r =>
    (if isSpace c then c = ' ' && !prevSp else true) && wsNormAux (isSpace c) r

/-! ## Helper lemmas -/

theorem convert_sentinel_of_no_block (sql : List Char)
    (h : extract_create_table_block (preprocess sql) = none) :
    convert_oracle_to_sqlite sql = errSentinel := by
  unfold convert_oracle_to_sqlite
  simp only [h]

theorem okFrom_append (x : List Char) : ∀ (d : Int) (y : List Char),
    okFrom d (x ++ y) = (okFrom d x && okFrom (d + netDepth x) y) := by
  induction x with
  | nil => intro d y; simp [okFrom, netDepth]
  | cons c r ih =>
    intro d y
    simp only [List.cons_append, okFrom, netDepth, List.append_eq, ih]
    rw [← add_assoc, Bool.and_assoc]

theorem closeBeforeOpen_of_ok : ∀ b : List Char, okFrom 0 b = true →
    closeBeforeOpen b = false := by
  intro b
  induction b with
  | nil => intro _; rfl
  | cons c r ih =>
    intro h
    rw [closeBeforeOpen]
    by_cases h1 : c = '('
    · simp [h1]
    · by_cases h2 : c = ')'
      · exfalso
        subst h2
        rw [okFrom] at h
        simp [parDelta] at h
      · have hd : parDelta c = 0 := by simp [parDelta, h1, h2]
        rw [okFrom, hd] at h
        simp at h
        simp [h1, h2]
        exact ih h

/-! ## Claim theorems -/

/-- C1, counterexample: the claim asserts that a `CHECK (... IN (list with
NULL) ...)` item is rewritten to `IN (<list minus NULL>) OR <expr> IS NULL`
with `<expr>` the tested expression.  On the item
`CHECK (X IN (1, NULL, 2))` the code's output contains the literal
`OR NEGATION IS NULL` (the replacement template hard-codes the word
`NEGATION`), contains no `X IS NULL` test, and the cleaned list
`IN (1, 2)` never appears (the NULL's comma separator is left behind). -/
theorem C1_in_null_counterexample :
    containsSub (("OR NEGATION IS NULL").toList) (convert_oracle_to_sqlite inC1) = true ∧
    containsSub (("X IS NULL").toList) (convert_oracle_to_sqlite inC1) = false ∧
    containsSub (("IN (1, 2)").toList) (convert_oracle_to_sqlite inC1) = false := by
  refine ⟨by decide, by decide, by decide⟩

/-- C1, amended: the rewrite replaces `IN (<g1>NULL<g2>)` (with `<g1>`,
`<g2>` non-empty and free of `)`) by `IN (<g1><g2>) OR NEGATION IS NULL`,
where `NEGATION` is a literal word from the replacement template — not the
tested expression — and the NULL element's comma separators are kept: on
the representative input the item `CHECK (X IN (1, NULL, 2))` becomes
`CHECK (X IN (1, , 2) OR NEGATION IS NULL)`. -/
theorem C1_in_null_amended :
    convert_oracle_to_sqlite inC1 = outC1 := by
  decide

/-- C2, counterexample: the claim asserts the splitter splits at exactly
the depth-0 commas of the interior.  On the block
`CREATE TABLE T (A CHECK (F(1), G(2)))` the comma lies at depth 2, yet the
code's lookahead split (`,(?![^(]*\))`) splits there, because the comma is
followed by `(` before any `)`; the depth-0 splitter keeps one item. -/
theorem C2_splitter_counterexample :
    codeItemsOfBlock blockC2bad =
      [("A CHECK (F(1)").toList, ("G(2))").toList] ∧
    specItemsOfBlock blockC2bad = [("A CHECK (F(1), G(2))").toList] ∧
    codeItemsOfBlock blockC2bad ≠ specItemsOfBlock blockC2bad := by
  refine ⟨by decide, by decide, by decide⟩

/-- C2, amended: the splitter splits at a comma iff the following text does
not reach a `)` before the first `(` (the regex lookahead `[^(]*\)`).
Consequently (i) every comma at parenthesis depth 0 of a
nonnegative-balance interior does split — a depth-0 comma's suffix cannot
reach an unmatched `)` first (first conjunct), and a comma whose lookahead
fails splits the item there (second conjunct, the splitter's step); and
(ii) on nested commas this agrees with depth-0 splitting only when the
nested comma is followed by `)` before `(`, as in `NUMBER(10,2)`,
`CHECK (X IN (1,2,3))` and `STORAGE (INITIAL 1, NEXT 2)` (third and fourth
conjuncts), but not in general (see the counterexample). -/
theorem C2_splitter_amended :
    (∀ a b : List Char, okFrom 0 (a ++ ',' :: b) = true → netDepth a = 0 →
      closeBeforeOpen b = false) ∧
    (∀ (acc b : List Char), closeBeforeOpen b = false →
      splitTop.go acc (',' :: b) = acc.reverse :: splitTop.go [] b) ∧
    codeItemsOfBlock blockC2ok = specItemsOfBlock blockC2ok ∧
    codeItemsOfBlock blockC2ok =
      [("A NUMBER(10,2)").toList, ("B CHECK (X IN (1,2,3))").toList,
        ("C STORAGE (INITIAL 1, NEXT 2)").toList] := by
  refine ⟨?_, ?_, by decide, by decide⟩
  · intro a b hok hnet
    rw [okFrom_append, Bool.and_eq_true] at hok
    have h2 := hok.2
    rw [hnet] at h2
    have hd : parDelta ',' = 0 := by decide
    rw [okFrom, hd] at h2
    simp at h2
    exact closeBeforeOpen_of_ok b h2
  · intro acc b hb
    rw [splitTop.go]
    simp [hb]

/-- C3: on the CREATE TABLE with a sequence-backed default plus the
ALTER TABLE PRIMARY KEY statement, the output contains the item
`ID INTEGER PRIMARY KEY AUTOINCREMENT` and no separate trailing
`PRIMARY KEY (ID)` clause: the pending primary key is consumed exactly
once by the autoincrement rewrite. -/
theorem C3_autoincrement_consumes_pk :
    convert_oracle_to_sqlite inC3 = outC3 ∧
    containsSub (("ID INTEGER PRIMARY KEY AUTOINCREMENT").toList)
      (convert_oracle_to_sqlite inC3) = true ∧
    containsSub (("PRIMARY KEY (ID)").toList) (convert_oracle_to_sqlite inC3) = false := by
  refine ⟨by decide, by decide, by decide⟩

/-- C4: for every input whose preprocessed text has no match of the
CREATE TABLE header pattern, the converter returns exactly the literal
error sentinel (the function is total, so no exception is possible and no
other output is produced). -/
theorem C4_sentinel_on_missing_header (sql : List Char)
    (h : extract_create_table_block (preprocess sql) = none) :
    convert_oracle_to_sqlite sql = errSentinel :=
  convert_sentinel_of_no_block sql h

/-- Witness for C4 at the concrete input `hello`. -/
theorem C4_sentinel_on_missing_header_witness :
    extract_create_table_block (preprocess (("hello").toList)) = none ∧
    convert_oracle_to_sqlite (("hello").toList) = errSentinel :=
  ⟨by decide, C4_sentinel_on_missing_header (("hello").toList) (by decide)⟩

/-- C7, counterexample: the claim asserts no STORAGE(...) clause from the
input ever appears in the output.  The input block
`(X INT STORAGE (A, B(1)))` contains the clause `STORAGE (A, B(1))`, whose
internal comma is followed by a nested `(`; the splitter cuts the clause in
two, the per-item `STORAGE\s*\(.*?\)` deletion no longer matches, and the
output contains `STORAGE (A`. -/
theorem C7_storage_survives_counterexample :
    containsSub (("STORAGE (A, B(1))").toList) inC7bad = true ∧
    containsSub (("STORAGE (A").toList) (convert_oracle_to_sqlite inC7bad) = true := by
  refine ⟨by decide, by decide⟩

/-- C7, amended: comments, `NOVALIDATE`, `TABLESPACE <name>` clauses and
STORAGE(...) clauses that stay within one item (no comma followed by a
nested `(` in their body) are removed from the output, as on this
representative input containing all four noise kinds; a STORAGE clause
split across items can survive in fragments (see the counterexample). -/
theorem C7_noise_removed_amended :
    convert_oracle_to_sqlite inC7ok = outC7ok ∧
    containsSub (("SECRET1").toList) (convert_oracle_to_sqlite inC7ok) = false ∧
    containsSub (("SECRET2").toList) (convert_oracle_to_sqlite inC7ok) = false ∧
    containsSub novTok (convert_oracle_to_sqlite inC7ok) = false ∧
    containsSub tablespaceTok (convert_oracle_to_sqlite inC7ok) = false ∧
    containsSub storageTok (convert_oracle_to_sqlite inC7ok) = false ∧
    containsSub dashDashTok (convert_oracle_to_sqlite inC7ok) = false := by
  refine ⟨by decide, by decide, by decide, by decide, by decide, by decide, by decide⟩

/-- C8: without a sequence-backed default, the ALTER TABLE PRIMARY KEY
input yields a trailing `PRIMARY KEY (ID)` item after the column items,
and the ID column keeps its mapped plain type (`ID INTEGER`, no
AUTOINCREMENT rewrite). -/
theorem C8_pk_trailing_clause :
    convert_oracle_to_sqlite inC8 = outC8 ∧
    containsSub (("PRIMARY KEY (ID)").toList) (convert_oracle_to_sqlite inC8) = true ∧
    containsSub (("ID INTEGER").toList) (convert_oracle_to_sqlite inC8) = true ∧
    containsSub (("AUTOINCREMENT").toList) (convert_oracle_to_sqlite inC8) = false := by
  refine ⟨by decide, by decide, by decide, by decide⟩

/-- C9: the end-to-end example: schema qualifier dropped from the table
name, `ID INTEGER NOT NULL` and `NAME TEXT` produced, CHECK clause
preserved with `ENABLE` removed. -/
theorem C9_end_to_end_example :
    convert_oracle_to_sqlite inC9 = outC9 ∧
    startsWithCS (("CREATE TABLE IF NOT EXISTS EMP (").toList)
      (convert_oracle_to_sqlite inC9) = true ∧
    containsSub (("ID INTEGER NOT NULL").toList) (convert_oracle_to_sqlite inC9) = true ∧
    containsSub (("NAME TEXT").toList) (convert_oracle_to_sqlite inC9) = true ∧
    containsSub (("CHECK (NAME IS NOT NULL)").toList) (convert_oracle_to_sqlite inC9) = true ∧
    containsSub (("ENABLE").toList) (convert_oracle_to_sqlite inC9) = false := by
  refine ⟨by decide, by decide, by decide, by decide, by decide, by decide⟩

/-- C10: the header regex demands the two-component `<schema>.<table>`
form, so an input whose only CREATE TABLE header is unqualified (single
identifier, no dot) still gets the error sentinel. -/
theorem C10_unqualified_header_sentinel (sql : List Char)
    (_h1 : hasCreateNoSchema (preprocess sql) = true)
    (h2 : extract_create_table_block (preprocess sql) = none) :
    convert_oracle_to_sqlite sql = errSentinel :=
  convert_sentinel_of_no_block sql h2

/-- Witness for C10 at `CREATE TABLE T (A INT)`: an unqualified header is
present, yet the two-component pattern finds nothing and the sentinel is
returned. -/
theorem C10_unqualified_header_sentinel_witness :
    hasCreateNoSchema (preprocess (("CREATE TABLE T (A INT)").toList)) = true ∧
    extract_create_table_block (preprocess (("CREATE TABLE T (A INT)").toList)) = none ∧
    convert_oracle_to_sqlite (("CREATE TABLE T (A INT)").toList) = errSentinel :=
  ⟨by decide, by decide,
    C10_unqualified_header_sentinel (("CREATE TABLE T (A INT)").toList)
      (by decide) (by decide)⟩

/-- Witness for the universal conjuncts of the amended C2, at
`a = "A (B)"`, `b = " C"` (a depth-0 comma in `A (B), C`). -/
theorem C2_splitter_amended_witness :
    okFrom 0 ((("A (B)").toList) ++ ',' :: ((" C").toList)) = true ∧
    netDepth (("A (B)").toList) = 0 ∧
    closeBeforeOpen ((" C").toList) = false ∧
    splitTop.go [] (',' :: ((" C").toList)) = [[], (" C").toList] :=
  ⟨by decide, by decide,
    C2_splitter_amended.1 (("A (B)").toList) ((" C").toList) (by decide) (by decide),
    by
      have h := C2_splitter_amended.2.1 [] ((" C").toList)
        (C2_splitter_amended.1 (("A (B)").toList) ((" C").toList) (by decide) (by decide))
      rw [h]
      decide⟩

/-! ## C5: `map_oracle_type` -/

theorem dropCS_startsWith : ∀ (p l r : List Char), dropCS p l = some r →
    startsWithCS p l = true := by
  intro p
  induction p with
  | nil => intro l r _; rfl
  | cons a ps ih =>
    intro l r h
    cases l with
    | nil => simp [dropCS] at h
    | cons c cs =>
      rw [dropCS] at h
      split at h
      · rename_i hac
        rw [startsWithCS]
        simp [hac]
        exact ih cs r h
      · cases h

theorem startsWithCS_containsSub : ∀ (p l : List Char), startsWithCS p l = true →
    containsSub p l = true := by
  intro p l h
  cases l with
  | nil => rw [containsSub]; exact h
  | cons c cs => rw [containsSub, h]; rfl

theorem matchNumHead_contains (t r : List Char) (h : matchNumHead t = some r) :
    containsSub numberTok t = true := by
  unfold matchNumHead at h
  cases hd : dropCS numberTok t with
  | none => rw [hd] at h; simp at h
  | some r2 => exact startsWithCS_containsSub _ _ (dropCS_startsWith _ _ _ hd)

theorem map_oracle_type_passthrough (t : List Char)
    (h1 : upperAscii t = t)
    (h2 : reSub (fun _ l => tryParenCharByte l) t = t)
    (hn : containsSub numberTok t = false)
    (hv : containsSub varchar2Tok t = false)
    (hc : containsSub charTok t = false)
    (hcl : containsSub clobTok t = false)
    (hd : containsSub dateTok t = false)
    (hts : containsSub timestampTok t = false)
    (hb : containsSub blobTok t = false) :
    map_oracle_type t = t := by
  have hhead : matchNumHead t = none := by
    cases hh : matchNumHead t with
    | none => rfl
    | some r =>
      have hcontra := matchNumHead_contains t r hh
      rw [hcontra] at hn
      simp at hn
  have h20 : matchNum20 t = false := by unfold matchNum20; rw [hhead]
  have hm2 : matchNum2 t = false := by unfold matchNum2; rw [hhead]
  have hm1 : matchNum1 t = false := by unfold matchNum1; rw [hhead]
  simp [map_oracle_type, h1, h2, h20, hm2, hm1, hn, hv, hc, hcl, hd, hts, hb]

/-- C5: the type-mapping function sends `NUMBER(5,0)` to `INTEGER`,
`NUMBER(5,2)` to `REAL`, `VARCHAR2(50)` to `TEXT`, `DATE` to `TEXT` and
`BLOB` to `BLOB`, and passes any normalized type token (already
upper-cased and free of `(n CHAR)`/`(n BYTE)` qualifiers) that matches
none of the listed patterns through unchanged. -/
theorem C5_type_mapping :
    map_oracle_type (("NUMBER(5,0)").toList) = ("INTEGER").toList ∧
    map_oracle_type (("NUMBER(5,2)").toList) = ("REAL").toList ∧
    map_oracle_type (("VARCHAR2(50)").toList) = ("TEXT").toList ∧
    map_oracle_type (("DATE").toList) = ("TEXT").toList ∧
    map_oracle_type (("BLOB").toList) = ("BLOB").toList ∧
    (∀ t : List Char, upperAscii t = t →
      reSub (fun _ l => tryParenCharByte l) t = t →
      containsSub numberTok t = false → containsSub varchar2Tok t = false →
      containsSub charTok t = false → containsSub clobTok t = false →
      containsSub dateTok t = false → containsSub timestampTok t = false →
      containsSub blobTok t = false → map_oracle_type t = t) := by
  refine ⟨by decide, by decide, by decide, by decide, by decide, ?_⟩
  intro t h1 h2 hn hv hc hcl hd hts hb
  exact map_oracle_type_passthrough t h1 h2 hn hv hc hcl hd hts hb

/-- Witness for the pass-through conjunct of C5 at the unlisted type token
`XYZ(7)`. -/
theorem C5_type_mapping_witness :
    upperAscii tokC5 = tokC5 ∧
    reSub (fun _ l => tryParenCharByte l) tokC5 = tokC5 ∧
    map_oracle_type tokC5 = tokC5 :=
  ⟨by decide, by decide,
    C5_type_mapping.2.2.2.2.2 tokC5 (by decide) (by decide) (by decide) (by decide)
      (by decide) (by decide) (by decide) (by decide) (by decide)⟩

/-! ## C6: the preprocessor -/

theorem remLineAux_id : ∀ (fuel : Nat) (l : List Char),
    containsSub dashDashTok l = false → remLineAux fuel l = l := by
  intro fuel
  induction fuel with
  | zero => intro l _; rfl
  | succ f ih =>
    intro l h
    match l with
    | [] => rfl
    | [c] => rfl
    | a :: b :: r =>
      rw [containsSub, Bool.or_eq_false_iff] at h
      obtain ⟨hhead, htail⟩ := h
      rw [remLineAux]
      have hcond : (decide (a = '-') && decide (b = '-')) = false := by
        by_cases ha : a = '-'
        · by_cases hb2 : b = '-'
          · exfalso
            subst ha; subst hb2
            simp [dashDashTok, startsWithCS] at hhead
          · simp [hb2]
        · simp [ha]
      rw [hcond]
      simp
      exact ih (b :: r) htail

theorem remBlockAux_id : ∀ (fuel : Nat) (l : List Char),
    hasBlockPair l = false → remBlockAux fuel l = l := by
  intro fuel
  induction fuel with
  | zero => intro l _; rfl
  | succ f ih =>
    intro l h
    match l with
    | [] => rfl
    | [c] => rfl
    | a :: b :: r =>
      rw [hasBlockPair, Bool.or_eq_false_iff] at h
      obtain ⟨hhead, htail⟩ := h
      rw [remBlockAux]
      by_cases hab : (decide (a = '/') && decide (b = '*')) = true
      · rw [hab]
        have hnone : findCloseBC r = none := by
          cases hf : findCloseBC r with
          | none => rfl
          | some r2 =>
            exfalso
            rw [Bool.and_eq_true] at hab
            simp [hab.1, hab.2, hf] at hhead
        rw [hnone]
        simp
        exact ih (b :: r) htail
      · rw [Bool.not_eq_true] at hab
        rw [hab]
        simp
        exact ih (b :: r) htail

theorem removeNovAux_id : ∀ (fuel : Nat) (p : Bool) (l : List Char),
    hasNovAux p l = false → removeNovAux fuel p l = l := by
  intro fuel
  induction fuel with
  | zero => intro p l _; rfl
  | succ f ih =>
    intro p l h
    match l with
    | [] => rfl
    | c :: rest =>
      rw [hasNovAux, Bool.or_eq_false_iff] at h
      rw [removeNovAux, h.1]
      simp
      exact ih (isWordChar c) rest h.2

theorem collapseWs_cons_nonspace (b : Char) (r : List Char) (hb : isSpace b = false) :
    collapseWs (b :: r) = b :: (match r with
      | [] => ([] : List Char)
      | y :: r2 => collapseWs (y :: r2)) := by
  cases r with
  | nil => simp [collapseWs, hb]
  | cons y r2 => simp [collapseWs, hb]

theorem wsNormAux_cons_nonspace (p : Bool) (c : Char) (r : List Char)
    (hc : isSpace c = false) : wsNormAux p (c :: r) = wsNormAux false r := by
  rw [wsNormAux, hc]
  simp

theorem wsNorm_collapse : (l : List Char) → wsNormAux false (collapseWs l) = true
  | [] => by simp [collapseWs, wsNormAux]
  | [c] => by
    by_cases hc : isSpace c = true
    · have h1 : collapseWs [c] = [' '] := by simp [collapseWs, hc]
      rw [h1]; decide
    · rw [Bool.not_eq_true] at hc
      have h1 : collapseWs [c] = [c] := by simp [collapseWs, hc]
      rw [h1, wsNormAux, hc]
      simp [wsNormAux]
  | a :: b :: r => by
    have hx := wsNorm_collapse (b :: r)
    by_cases ha : isSpace a = true
    · by_cases hb : isSpace b = true
      · simpa [collapseWs, ha, hb] using hx
      · rw [Bool.not_eq_true] at hb
        rw [collapseWs_cons_nonspace b r hb] at hx
        have heq : collapseWs (a :: b :: r) = ' ' :: collapseWs (b :: r) := by
          simp [collapseWs, ha, hb]
        rw [heq, collapseWs_cons_nonspace b r hb]
        rw [wsNormAux]
        simp [isSpace]
        rw [wsNormAux_cons_nonspace true b _ hb]
        rw [wsNormAux_cons_nonspace false b _ hb] at hx
        exact hx
    · rw [Bool.not_eq_true] at ha
      have heq : collapseWs (a :: b :: r) = a :: collapseWs (b :: r) := by
        simp [collapseWs, ha]
      rw [heq, wsNormAux_cons_nonspace false a _ ha]
      exact hx

theorem collapse_of_wsNorm : (l : List Char) → wsNormAux false l = true → collapseWs l = l
  | [], _ => rfl
  | [c], h => by
    by_cases hc : isSpace c = true
    · have hc2 : c = ' ' := by
        rw [wsNormAux, hc] at h
        simp [wsNormAux] at h
        exact h
      simp [collapseWs, hc, hc2]
    · rw [Bool.not_eq_true] at hc
      simp [collapseWs, hc]
  | a :: b :: r, h => by
    rw [wsNormAux, Bool.and_eq_true] at h
    obtain ⟨h1, h2⟩ := h
    by_cases ha : isSpace a = true
    · have ha2 : a = ' ' := by
        rw [ha] at h1
        simp at h1
        exact h1
      by_cases hb : isSpace b = true
      · exfalso
        rw [ha, wsNormAux, hb] at h2
        simp at h2
      · rw [Bool.not_eq_true] at hb
        have h2b : wsNormAux false (b :: r) = true := by
          rw [ha] at h2
          rw [wsNormAux_cons_nonspace true b r hb] at h2
          rw [wsNormAux_cons_nonspace false b r hb]
          exact h2
        have := collapse_of_wsNorm (b :: r) h2b
        simp [collapseWs, ha, hb, this, ha2]
    · rw [Bool.not_eq_true] at ha
      have h2b : wsNormAux false (b :: r) = true := by rw [ha] at h2; exact h2
      have := collapse_of_wsNorm (b :: r) h2b
      simp [collapseWs, ha, this]

theorem wsNorm_append_left : (x y : List Char) → (p : Bool) →
    wsNormAux p (x ++ y) = true → wsNormAux p x = true
  | [], _, _, _ => rfl
  | c :: r, y, p, h => by
    rw [List.cons_append, wsNormAux, Bool.and_eq_true] at h
    rw [wsNormAux, Bool.and_eq_true]
    exact ⟨h.1, wsNorm_append_left r y (isSpace c) h.2⟩

theorem wsNorm_dropWhile : (l : List Char) → (p : Bool) →
    wsNormAux p l = true → wsNormAux false (List.dropWhile isSpace l) = true
  | [], _, _ => rfl
  | c :: r, p, h => by
    rw [wsNormAux, Bool.and_eq_true] at h
    by_cases hc : isSpace c = true
    · rw [List.dropWhile_cons, hc]
      simp
      exact wsNorm_dropWhile r (isSpace c) h.2
    · rw [Bool.not_eq_true] at hc
      rw [List.dropWhile_cons, hc]
      simp
      rw [wsNormAux, hc, Bool.and_eq_true]
      refine ⟨by simp, ?_⟩
      rw [hc] at h
      exact h.2

theorem stripWs_eq (l : List Char) :
    stripWs l = List.rdropWhile isSpace (List.dropWhile isSpace l) := rfl

theorem wsNorm_stripWs (l : List Char) (h : wsNormAux false l = true) :
    wsNormAux false (stripWs l) = true := by
  rw [stripWs_eq]
  have h1 : wsNormAux false (List.dropWhile isSpace l) = true := wsNorm_dropWhile l false h
  obtain ⟨t, ht⟩ := List.rdropWhile_prefix isSpace (List.dropWhile isSpace l)
  rw [← ht] at h1
  exact wsNorm_append_left _ t false h1

theorem dropWhile_head_not : ∀ (l : List Char) (c : Char) (r : List Char),
    List.dropWhile isSpace l = c :: r → isSpace c = false := by
  intro l
  induction l with
  | nil => intro c r h; simp [List.dropWhile] at h
  | cons a as ih =>
    intro c r h
    rw [List.dropWhile_cons] at h
    by_cases ha : isSpace a = true
    · rw [ha] at h
      simp at h
      exact ih c r h
    · rw [Bool.not_eq_true] at ha
      rw [ha] at h
      simp at h
      obtain ⟨h1, _⟩ := h
      rw [← h1]
      exact ha

theorem dropWhile_stripWs (l : List Char) :
    List.dropWhile isSpace (stripWs l) = stripWs l := by
  rw [stripWs_eq]
  obtain ⟨t, ht⟩ := List.rdropWhile_prefix isSpace (List.dropWhile isSpace l)
  cases hY : List.rdropWhile isSpace (List.dropWhile isSpace l) with
  | nil => simp
  | cons y0 ys =>
    rw [hY] at ht
    have hy0 : isSpace y0 = false :=
      dropWhile_head_not l y0 (ys ++ t) ht.symm
    rw [List.dropWhile_cons, hy0]
    simp

theorem stripWs_idem (l : List Char) : stripWs (stripWs l) = stripWs l := by
  calc stripWs (stripWs l)
      = List.rdropWhile isSpace (List.dropWhile isSpace (stripWs l)) := rfl
    _ = List.rdropWhile isSpace (stripWs l) := by rw [dropWhile_stripWs]
    _ = List.rdropWhile isSpace (List.rdropWhile isSpace (List.dropWhile isSpace l)) := rfl
    _ = List.rdropWhile isSpace (List.dropWhile isSpace l) := List.rdropWhile_idempotent _ _
    _ = stripWs l := rfl

theorem collapse_strip_fix (u : List Char) :
    stripWs (collapseWs (stripWs (collapseWs u))) = stripWs (collapseWs u) := by
  have hA : wsNormAux false (collapseWs u) = true := wsNorm_collapse u
  have hC : wsNormAux false (stripWs (collapseWs u)) = true := wsNorm_stripWs _ hA
  have hB : collapseWs (stripWs (collapseWs u)) = stripWs (collapseWs u) :=
    collapse_of_wsNorm _ hC
  rw [hB, stripWs_idem]

/-- C6, counterexample: the preprocessor is not idempotent.  On the input
`inC6` (a hyphen, then a block comment, then a hyphen) block-comment
removal creates a new `--` line-comment marker: one pass yields `--`, a
second pass yields the empty string. -/
theorem C6_preprocessor_counterexample :
    preprocess (preprocess inC6) ≠ preprocess inC6 := by decide

/-- C6, amended: the preprocessor is idempotent on every input whose
once-preprocessed text contains no `--` marker, no `/*` with a matching
`*/`, and no word-bounded `NOVALIDATE`; comment removal can manufacture
exactly these tokens (see the counterexample), and the whitespace
collapse-and-trim stage alone is always idempotent (`collapse_strip_fix`). -/
theorem C6_preprocessor_amended (s : List Char)
    (h1 : containsSub dashDashTok (preprocess s) = false)
    (h2 : hasBlockPair (preprocess s) = false)
    (h3 : hasNov (preprocess s) = false) :
    preprocess (preprocess s) = preprocess s := by
  have e1 : removeLineComments (preprocess s) = preprocess s :=
    remLineAux_id _ _ h1
  have e2 : removeBlockComments (preprocess s) = preprocess s :=
    remBlockAux_id _ _ h2
  have e3 : removeNov (preprocess s) = preprocess s :=
    removeNovAux_id _ _ _ h3
  show stripWs (collapseWs (removeNov (removeBlockComments (removeLineComments
    (preprocess s))))) = preprocess s
  rw [e1, e2, e3]
  exact collapse_strip_fix (removeNov (removeBlockComments (removeLineComments s)))

/-- Witness for the amended C6 at a representative input containing a line
comment, a block comment, a NOVALIDATE keyword and redundant whitespace. -/
theorem C6_preprocessor_amended_witness :
    containsSub dashDashTok (preprocess inC6W) = false ∧
    hasBlockPair (preprocess inC6W) = false ∧
    hasNov (preprocess inC6W) = false ∧
    preprocess (preprocess inC6W) = preprocess inC6W :=
  ⟨by decide, by decide, by decide,
    C6_preprocessor_amended inC6W (by decide) (by decide) (by decide)⟩

end DdlConvert
